import Mathlib

/-!
Verification development for the cost-bounded natural-language-to-query
pipeline: the BigQuery database connector (`app/db/bigquery_database.py`)
and the BigQuery tool's generate → validate → repair synthesis loop
(`app/services/chat_agent/tools/library/bigquery_tool/bigquery_tool.py`).

Strings are modelled as lists of characters; Python string primitives
(find, slice, strip, split, replace, lower) are embedded faithfully,
including Python's convention that `str.find` returns -1 on failure.
-/

namespace BQ

/-- Python whitespace characters (the ASCII set stripped by `str.strip()`). -/
def isPyWS (c : Char) : Bool :=
  c = ' ' || c = '\t' || c = '\n' || c = '\r' || c = '\x0b' || c = '\x0c'

/-- Python `str.strip()`: drop leading and trailing whitespace. -/
def pyStrip (s : List Char) : List Char :=
  ((s.dropWhile isPyWS).reverse.dropWhile isPyWS).reverse

/-- Pattern `p` occurs in `s` at index `i`. -/
def matchAt (s p : List Char) (i : Nat) : Bool :=
  (s.drop i).take p.length == p

/-- Scan indices `i, i+1, ...` (fuel-bounded): least index with a match, else -1. -/
def pyFindAux (s p : List Char) : Nat → Nat → Int
  | 0, _ => -1
  | fuel + 1, i => if matchAt s p i then (i : Int) else pyFindAux s p fuel (i + 1)

/-- Python `s.find(p, start)`: least index `i ≥ start` where `p` occurs, else -1. -/
def pyFind (s p : List Char) (start : Nat) : Int :=
  pyFindAux s p (s.length + 1 - start) start

/-- Python slice `s[a:b]` for nonnegative bounds. -/
def pySlice (s : List Char) (a b : Nat) : List Char :=
  (s.drop a).take (b - a)

/-- The opening fence marker of the query-fencing wire convention. -/
def sqlOpenMarker : List Char := "```sql".toList

/-- The closing fence marker. -/
def fenceMarker : List Char := "```".toList

/-- The parse-failure reason produced by `_avalidate_response`. -/
def parseFailMsg : List Char := "Could not parse SQL query from response".toList

/--
Query extraction, embedded from `_avalidate_response` (bigquery_tool.py,
lines 231-236):

    query_start = response.find("```sql") + 6
    query_end = response.find("```", query_start)
    if query_start == -1 or query_end == -1:
        return False, "", "Could not parse SQL query from response"
    query = response[query_start:query_end].strip()

Note `query_start` is the find result *plus six*, so it can never equal -1:
when the opening marker is absent, `query_start` is 5, not -1.
-/
def extractQuery (response : List Char) : Except (List Char) (List Char) :=
  let query_start : Int := pyFind response sqlOpenMarker 0 + 6
  let query_end : Int := pyFind response fenceMarker query_start.toNat
  if query_start == -1 || query_end == -1 then
    Except.error parseFailMsg
  else
    Except.ok (pyStrip (pySlice response query_start.toNat query_end.toNat))

/-! ### Correctness of the embedded `str.find` -/

theorem pyFindAux_neg_iff (s p : List Char) :
    ∀ (fuel i : Nat), (pyFindAux s p fuel i = -1 ↔
      ∀ j, i ≤ j → j < i + fuel → matchAt s p j = false) := by
  intro fuel
  induction fuel with
  | zero =>
    intro i
    constructor
    · intro _ j hij hj
      omega
    · intro _
      rfl
  | succ n ih =>
    intro i
    unfold pyFindAux
    by_cases h : matchAt s p i = true
    · rw [if_pos h]
      constructor
      · intro hc
        exfalso
        omega
      · intro hall
        have hfalse := hall i (le_refl i) (by omega)
        rw [h] at hfalse
        exact absurd hfalse (by simp)
    · rw [if_neg h, ih (i + 1)]
      constructor
      · intro hall j hij hj
        rcases Nat.eq_or_lt_of_le hij with heq | hlt
        · subst heq
          simpa using h
        · exact hall j hlt (by omega)
      · intro hall j hij hj
        exact hall j (by omega) (by omega)

theorem pyFindAux_nonneg (s p : List Char) :
    ∀ (fuel i k : Nat), pyFindAux s p fuel i = (k : Int) →
      i ≤ k ∧ matchAt s p k = true ∧ ∀ j, i ≤ j → j < k → matchAt s p j = false := by
  intro fuel
  induction fuel with
  | zero =>
    intro i k hc
    exact absurd hc (by simp [pyFindAux])
  | succ n ih =>
    intro i k hc
    unfold pyFindAux at hc
    by_cases h : matchAt s p i = true
    · rw [if_pos h] at hc
      have hik : i = k := by omega
      subst hik
      exact ⟨le_refl i, h, fun j hij hj => by omega⟩
    · rw [if_neg h] at hc
      obtain ⟨h1, h2, h3⟩ := ih (i + 1) k hc
      refine ⟨by omega, h2, ?_⟩
      intro j hij hj
      rcases Nat.eq_or_lt_of_le hij with heq | hlt
      · subst heq
        simpa using h
      · exact h3 j hlt hj

/-- A nonempty pattern never matches at or beyond the end of the string. -/
theorem matchAt_of_ge_length (s p : List Char) (hp : p ≠ []) (i : Nat)
    (hi : s.length ≤ i) : matchAt s p i = false := by
  unfold matchAt
  have hdrop : s.drop i = [] := List.drop_eq_nil_of_le hi
  rw [hdrop]
  simp only [List.take_nil]
  cases p with
  | nil => exact absurd rfl hp
  | cons a l => rfl

theorem pyFind_neg_iff (s p : List Char) (hp : p ≠ []) (start : Nat) :
    pyFind s p start = -1 ↔ ∀ j, start ≤ j → matchAt s p j = false := by
  unfold pyFind
  rw [pyFindAux_neg_iff]
  constructor
  · intro hall j hj
    by_cases hlt : j < start + (s.length + 1 - start)
    · exact hall j hj hlt
    · exact matchAt_of_ge_length s p hp j (by omega)
  · intro hall j hj _
    exact hall j hj

theorem pyFind_eq_coe (s p : List Char) (start k : Nat)
    (hc : pyFind s p start = (k : Int)) :
    start ≤ k ∧ matchAt s p k = true ∧
      ∀ j, start ≤ j → j < k → matchAt s p j = false :=
  pyFindAux_nonneg s p _ start k hc

theorem pyFindAux_ge (s p : List Char) :
    ∀ (fuel i : Nat), -1 ≤ pyFindAux s p fuel i := by
  intro fuel
  induction fuel with
  | zero => intro i; simp [pyFindAux]
  | succ n ih =>
    intro i
    unfold pyFindAux
    by_cases h : matchAt s p i = true
    · simp only [h, if_true]
      omega
    · simp only [h, if_false]
      exact ih (i + 1)

theorem pyFind_ge (s p : List Char) (start : Nat) : -1 ≤ pyFind s p start :=
  pyFindAux_ge s p _ start

/-- `pyFind` is either -1 or a natural number. -/
theorem pyFind_cases (s p : List Char) (start : Nat) :
    pyFind s p start = -1 ∨ ∃ k : Nat, pyFind s p start = (k : Int) := by
  have h := pyFind_ge s p start
  rcases le_or_lt 0 (pyFind s p start) with h0 | h0
  · right
    exact ⟨(pyFind s p start).toNat, (Int.toNat_of_nonneg h0).symm⟩
  · left
    omega

/-- If `k` is the first match at or after `start`, then `pyFind` returns `k`. -/
theorem pyFind_eq_of_first (s p : List Char) (hp : p ≠ []) (start k : Nat)
    (hk : start ≤ k) (hm : matchAt s p k = true)
    (hmin : ∀ j, start ≤ j → j < k → matchAt s p j = false) :
    pyFind s p start = (k : Int) := by
  rcases pyFind_cases s p start with hneg | ⟨k2, hk2⟩
  · rw [pyFind_neg_iff s p hp start] at hneg
    have := hneg k hk
    rw [hm] at this
    exact absurd this (by simp)
  · obtain ⟨h1, h2, h3⟩ := pyFind_eq_coe s p start k2 hk2
    rcases lt_trichotomy k k2 with hlt | heq | hgt
    · have := h3 k hk hlt
      rw [hm] at this
      exact absurd this (by simp)
    · rw [hk2, heq]
    · have := hmin k2 h1 hgt
      rw [h2] at this
      exact absurd this (by simp)

/--
C2 (amended). Query extraction, as implemented: the effective start position
is (first occurrence of the opening marker) + 6 when the opening marker is
present, but 5 when it is absent (find returns -1 and the `+ 6` defeats the
absence check); extraction fails with "Could not parse SQL query from
response" exactly when no closing fence occurs at or after that position;
otherwise it returns the whitespace-stripped slice strictly between the
start position and the first closing fence at or after it. In particular a
response lacking the opening marker is not necessarily rejected, and the
returned text is stripped, not the raw substring.
-/
theorem extractQuery_spec (resp : List Char) (qs : Nat)
    (hqs : (pyFind resp sqlOpenMarker 0 + 6).toNat = qs) :
    ((∀ i, matchAt resp sqlOpenMarker i = false) → qs = 5) ∧
    (∀ i, matchAt resp sqlOpenMarker i = true →
       (∀ i2, i2 < i → matchAt resp sqlOpenMarker i2 = false) → qs = i + 6) ∧
    ((∀ j, qs ≤ j → matchAt resp fenceMarker j = false) →
       extractQuery resp = Except.error parseFailMsg) ∧
    (∀ j, qs ≤ j → matchAt resp fenceMarker j = true →
       (∀ j2, qs ≤ j2 → j2 < j → matchAt resp fenceMarker j2 = false) →
       extractQuery resp = Except.ok (pyStrip (pySlice resp qs j))) := by
  have hge : -1 ≤ pyFind resp sqlOpenMarker 0 := pyFind_ge _ _ _
  have hqsInt : pyFind resp sqlOpenMarker 0 + 6 = (qs : Int) := by omega
  refine ⟨?_, ?_, ?_, ?_⟩
  · intro habs
    have hneg : pyFind resp sqlOpenMarker 0 = -1 :=
      (pyFind_neg_iff _ _ (by decide) 0).mpr (fun j _ => habs j)
    omega
  · intro i hi hmin
    have heq : pyFind resp sqlOpenMarker 0 = (i : Int) :=
      pyFind_eq_of_first _ _ (by decide) 0 i (Nat.zero_le i) hi (fun j _ hj => hmin j hj)
    omega
  · intro hall
    have hqe : pyFind resp fenceMarker qs = -1 :=
      (pyFind_neg_iff _ _ (by decide) qs).mpr hall
    simp only [extractQuery, hqsInt, Int.toNat_natCast, hqe]
    rw [if_pos]
    simp
  · intro j hj hm hmin
    have hqe : pyFind resp fenceMarker qs = (j : Int) :=
      pyFind_eq_of_first _ _ (by decide) qs j hj hm hmin
    simp only [extractQuery, hqsInt, Int.toNat_natCast, hqe]
    have hcond : ¬(((qs : Int) == -1 || (j : Int) == -1) = true) := by
      simp only [Bool.or_eq_true, beq_iff_eq]
      omega
    rw [if_neg hcond]

/--
C2 witness: the characterization applied to a well-fenced response — the
opening marker is first at index 0, the first closing fence at or after
position 6 is at index 16, and extraction returns the stripped slice
between them ("SELECT 1").
-/
theorem extractQuery_spec_witness :
    extractQuery "```sql\nSELECT 1\n```".toList =
      Except.ok (pyStrip (pySlice "```sql\nSELECT 1\n```".toList 6 16)) ∧
    pyStrip (pySlice "```sql\nSELECT 1\n```".toList 6 16) = "SELECT 1".toList := by
  constructor
  · exact (extractQuery_spec "```sql\nSELECT 1\n```".toList 6 (by decide)).2.2.2
      16 (by decide) (by decide)
      (by
        intro j2 h1 h2
        interval_cases j2 <;> rfl)
  · rfl

/--
C2 (counterexample to the claim as stated). In the response "hello```world"
the opening marker "```sql" is absent (the embedded find returns -1), yet
extraction does not fail with the parse-failure reason: it returns the empty
query (the stripped slice response[5:5]). The claim's "if either marker is
absent, extraction fails deterministically" is false on the code.
-/
theorem extract_missing_open_marker_not_rejected :
    pyFind "hello```world".toList sqlOpenMarker 0 = -1 ∧
    extractQuery "hello```world".toList = Except.ok [] := by
  constructor
  · rfl
  · rfl

/-! ### Validation-response parsing (`_parse_validation`) -/

/-- Python `str.lower()` (ASCII case mapping, as used on the Valid: line). -/
def pyLower (s : List Char) : List Char := s.map Char.toLower

/-- Python substring membership `p in s`. -/
def pyContains (s p : List Char) : Bool := !(pyFind s p 0 == -1)

/-- Python `s.startswith(p)`. -/
def startsWithList (s p : List Char) : Bool := s.take p.length == p

/-- Python `s.split(sep)` for a one-character separator, keeping empty pieces. -/
def pySplitChar (sep : Char) : List Char → List (List Char)
  | [] => [[]]
  | c :: cs =>
    match pySplitChar sep cs with
    | [] => [[]]
    | r :: rs => if c = sep then [] :: r :: rs else (c :: r) :: rs

/-- Python `s.split("\n")`. -/
def splitNl (s : List Char) : List (List Char) := pySplitChar '\n' s

/-- Python `s.replace(pat, sub)` for nonempty `pat` (fuel-bounded scan). -/
def pyReplaceAux (pat sub : List Char) : Nat → List Char → List Char
  | _, [] => []
  | 0, s => s
  | fuel + 1, c :: cs =>
    if startsWithList (c :: cs) pat then
      sub ++ pyReplaceAux pat sub fuel (List.drop (pat.length - 1) cs)
    else
      c :: pyReplaceAux pat sub fuel cs

/-- Python `s.replace(pat, sub)`. -/
def pyReplace (s pat sub : List Char) : List Char := pyReplaceAux pat sub s.length s

/-- The prefix of the validity line of the validation grammar. -/
def validMarker : List Char := "Valid:".toList

/-- The prefix of the reason line of the validation grammar. -/
def reasonMarker : List Char := "Reason:".toList

/-- The token deciding the boolean outcome. -/
def yesToken : List Char := "yes".toList

/--
One step of `_parse_validation`'s line loop (bigquery_tool.py, lines 310-314):

    if line.startswith("Valid:"):
        is_valid = "yes" in line.lower()
    elif line.startswith("Reason:"):
        reason = line.replace("Reason:", "").strip()
-/
def parseValidationLine (acc : Bool × List Char) (line : List Char) :
    Bool × List Char :=
  if startsWithList line validMarker then
    (pyContains (pyLower line) yesToken, acc.2)
  else if startsWithList line reasonMarker then
    (acc.1, pyStrip (pyReplace line reasonMarker []))
  else
    acc

/--
`_parse_validation` (bigquery_tool.py, lines 303-316): split the stripped
response on newlines, fold the line loop from `(False, "")`, and return the
triple `(is_valid, "", reason)` — the middle component is always empty.
-/
def parse_validation (response : List Char) : Bool × List Char × List Char :=
  let lines := splitNl (pyStrip response)
  let r := lines.foldl parseValidationLine (false, [])
  (r.1, [], r.2)

theorem parseValidation_fold_default (acc : Bool × List Char) :
    ∀ ls : List (List Char),
      (∀ l ∈ ls, startsWithList l validMarker = false ∧
                 startsWithList l reasonMarker = false) →
      ls.foldl parseValidationLine acc = acc := by
  intro ls
  induction ls generalizing acc with
  | nil => intro _; rfl
  | cons l ls ih =>
    intro hall
    obtain ⟨h1, h2⟩ := hall l (List.mem_cons_self l ls)
    have hstep : parseValidationLine acc l = acc := by
      unfold parseValidationLine
      rw [h1, h2]
      simp
    rw [List.foldl_cons, hstep]
    exact ih acc (fun x hx => hall x (List.mem_cons_of_mem l hx))

/--
C5. `_parse_validation` is total and: "Valid: yes\nReason: ok" parses to
valid with reason "ok"; "Valid: no\nReason: empty" parses to invalid with
reason "empty"; the yes-token test is a case-insensitive substring test
("Valid: YES" and "Valid: well yes indeed" are both valid); and a response
none of whose lines starts with "Valid:" or "Reason:" yields the default
(invalid, empty reason) rather than raising.
-/
theorem parse_validation_spec :
    parse_validation "Valid: yes\nReason: ok".toList = (true, [], "ok".toList) ∧
    parse_validation "Valid: no\nReason: empty".toList = (false, [], "empty".toList) ∧
    parse_validation "Valid: YES".toList = (true, [], []) ∧
    parse_validation "Valid: well yes indeed".toList = (true, [], []) ∧
    (∀ s : List Char,
      (∀ l ∈ splitNl (pyStrip s), startsWithList l validMarker = false ∧
                                  startsWithList l reasonMarker = false) →
      parse_validation s = (false, [], [])) := by
  refine ⟨by rfl, by rfl, by rfl, by rfl, ?_⟩
  intro s hall
  show (let lines := splitNl (pyStrip s);
        let r := lines.foldl parseValidationLine (false, []);
        (r.1, [], r.2)) = ((false, [], []) : Bool × List Char × List Char)
  simp only []
  rw [parseValidation_fold_default (false, []) _ hall]

/--
C5 witness: the theorem applied at concrete inputs; the final clause is
instantiated at "no grammar lines here" whose single line starts with
neither marker.
-/
theorem parse_validation_spec_witness :
    parse_validation "Valid: yes\nReason: ok".toList = (true, [], "ok".toList) ∧
    parse_validation "no grammar lines here".toList = (false, [], []) :=
  ⟨parse_validation_spec.1,
   parse_validation_spec.2.2.2.2 "no grammar lines here".toList (by decide)⟩

/-! ### The database connector (`app/db/bigquery_database.py`) -/

/-- A result row: a mapping from column name to (integer) scalar value. -/
abbrev Row := List (String × Int)

/-- One schema field, as produced by `get_table_schema`. -/
structure FieldDescriptor where
  name : String
  fieldType : String
  mode : String
  description : String
deriving DecidableEq

/--
The warehouse client, abstracted as oracles: the dry-run byte estimate per
query, the rows the real (non-dry-run) call returns, the page fetcher
(continuation token to batch and next token), the table-schema lookup
(`none` models the NotFound error of `get_table`), and whether trivial
queries currently succeed.
-/
structure Client where
  dryRunBytes : String → Nat
  realRows : String → List Row
  fetchPage : Option String → List Row × Option String
  tableSchema : String → Option (List FieldDescriptor)
  healthy : Bool

/--
The connector state: the pooled client, the configured
`BIGQUERY_MAX_BYTES_PROCESSED` budget, and whether the worker pool has been
shut down by `close()`. The Python class keeps no other closed-state: only
the `ThreadPoolExecutor` is affected by `close`.
-/
structure Connector where
  client : Client
  maxBytesProcessed : Nat
  poolShutdown : Bool

/-- Errors `execute_query` can produce. -/
inductive DbError
  | queryCost (msg : String)
  | runtime (msg : String)
deriving DecidableEq

/-- The message of `QueryCostError` (bigquery_database.py, lines 69-71). -/
def costErrorMsg (estimate : Nat) : String :=
  "Query would process " ++ toString estimate ++ " bytes"

/-- The trace of one `execute_query` call: its outcome, and whether the
real (non-dry-run) warehouse call was issued. -/
structure ExecTrace where
  result : Except DbError (List Row)
  realCallIssued : Bool

/--
`execute_query` (bigquery_database.py, lines 57-76): dry run first; raise
`QueryCostError` when the estimate strictly exceeds the budget; otherwise
submit the real call to the worker pool (which, once shut down, refuses new
work with a RuntimeError) and return the rows.
-/
def execute_query (c : Connector) (query : String) : ExecTrace :=
  let estimate := c.client.dryRunBytes query
  if c.maxBytesProcessed < estimate then
    { result := Except.error (DbError.queryCost (costErrorMsg estimate)),
      realCallIssued := false }
  else if c.poolShutdown then
    { result := Except.error (DbError.runtime "cannot schedule new futures after shutdown"),
      realCallIssued := false }
  else
    { result := Except.ok (c.client.realRows query), realCallIssued := true }

/-- `test_connection` (lines 92-100): try a trivial query, false on any
failure; it consults only the client, never the pool. -/
def test_connection (c : Connector) : Bool := c.client.healthy

/-- `get_table_schema` (lines 102-115): schema of one table via the client;
`get_table` raises NotFound for a missing table. -/
def get_table_schema (c : Connector) (table_name : String) :
    Except String (List FieldDescriptor) :=
  match c.client.tableSchema table_name with
  | some fields => Except.ok fields
  | none => Except.error "NotFound"

/-- `close` (lines 140-143): shut the worker pool down; nothing else. -/
def close (c : Connector) : Connector := { c with poolShutdown := true }

/-- Python truthiness of a page token: `None` and the empty string are falsy. -/
def pageTokenFalsy : Option String → Bool
  | none => true
  | some t => t == ""

/-- Python truthiness of the optional `max_pages` argument. -/
def maxPagesTruthy : Option Int → Bool
  | none => false
  | some n => !(n == 0)

/--
The pagination loop of `paginated_query` (bigquery_database.py, lines
124-138), fuel-bounded (the generator is lazy and, for an endlessly
continuing warehouse, unbounded; the fuel is how many pages the consumer
pulls):

    while True:
        page = query_job.result(page_size=..., page_token=page_token)
        yield [...]
        page_token = page.next_page_token
        if not page_token or (max_pages and page_count >= max_pages):
            break
        page_count += 1
-/
def paginated_query_aux (fetch : Option String → List Row × Option String)
    (max_pages : Option Int) : Nat → Option String → Nat → List (List Row)
  | 0, _, _ => []
  | fuel + 1, token, page_count =>
    (fetch token).1 ::
      (if pageTokenFalsy (fetch token).2 ||
          (maxPagesTruthy max_pages && decide (max_pages.getD 0 ≤ (page_count : Int))) then
        []
      else
        paginated_query_aux fetch max_pages fuel (fetch token).2 (page_count + 1))

/-- `paginated_query` starts with no token and `page_count = 0`. -/
def paginated_query (c : Connector) (max_pages : Option Int) (fuel : Nat) :
    List (List Row) :=
  paginated_query_aux c.client.fetchPage max_pages fuel none 0

theorem execute_query_over_budget (c : Connector) (q : String)
    (h : c.maxBytesProcessed < c.client.dryRunBytes q) :
    execute_query c q =
      { result := Except.error (DbError.queryCost (costErrorMsg (c.client.dryRunBytes q))),
        realCallIssued := false } := by
  simp [execute_query, h]

theorem execute_query_within_budget (c : Connector) (q : String)
    (h : ¬ c.maxBytesProcessed < c.client.dryRunBytes q)
    (hp : c.poolShutdown = false) :
    execute_query c q =
      { result := Except.ok (c.client.realRows q), realCallIssued := true } := by
  simp [execute_query, h, hp]

theorem execute_query_closed_pool (c : Connector) (q : String)
    (h : ¬ c.maxBytesProcessed < c.client.dryRunBytes q)
    (hp : c.poolShutdown = true) :
    execute_query c q =
      { result := Except.error (DbError.runtime "cannot schedule new futures after shutdown"),
        realCallIssued := false } := by
  simp [execute_query, h, hp]

/--
C1. On an open connector, `execute_query` performs the dry-run estimate
first and issues the real (non-dry-run) call iff the estimate is at most
the configured byte budget (equality allowed, decision a pure function of
estimate and budget); a strict excess raises `QueryCostError` and the real
call is never issued.
-/
theorem execute_query_cost_gate (c : Connector) (q : String)
    (hpool : c.poolShutdown = false) :
    ((execute_query c q).realCallIssued = true ↔
      c.client.dryRunBytes q ≤ c.maxBytesProcessed) ∧
    (c.maxBytesProcessed < c.client.dryRunBytes q →
      (execute_query c q).result =
        Except.error (DbError.queryCost (costErrorMsg (c.client.dryRunBytes q))) ∧
      (execute_query c q).realCallIssued = false) ∧
    (c.client.dryRunBytes q ≤ c.maxBytesProcessed →
      (execute_query c q).result = Except.ok (c.client.realRows q) ∧
      (execute_query c q).realCallIssued = true) := by
  by_cases h : c.maxBytesProcessed < c.client.dryRunBytes q
  · rw [execute_query_over_budget c q h]
    refine ⟨?_, fun _ => ⟨rfl, rfl⟩, fun hle => absurd h (by omega)⟩
    constructor
    · intro hc
      exact absurd hc (by simp)
    · intro hle
      omega
  · rw [execute_query_within_budget c q h hpool]
    exact ⟨⟨fun _ => by omega, fun _ => rfl⟩,
           fun hlt => absurd hlt h,
           fun _ => ⟨rfl, rfl⟩⟩

/-- A client whose dry-run estimate is small (500 bytes). -/
def clientSmall : Client :=
  { dryRunBytes := fun _ => 500,
    realRows := fun _ => [[("users", 100), ("sessions", 150)],
                          [("users", 120), ("sessions", 180)]],
    fetchPage := fun _ => ([], none),
    tableSchema := fun _ => none,
    healthy := true }

/-- A client whose dry-run estimate (2 GB) exceeds the 1 GB budget. -/
def clientBig : Client := { clientSmall with dryRunBytes := fun _ => 2000000000 }

/--
C1 witness: with budget 1000000000, the 500-byte estimate issues the real
call, and the 2000000000-byte estimate is rejected with `QueryCostError`
before any real call.
-/
theorem execute_query_cost_gate_witness :
    (execute_query ⟨clientSmall, 1000000000, false⟩ "SELECT 1").realCallIssued = true ∧
    (execute_query ⟨clientBig, 1000000000, false⟩ "SELECT 1").result =
      Except.error (DbError.queryCost (costErrorMsg 2000000000)) ∧
    (execute_query ⟨clientBig, 1000000000, false⟩ "SELECT 1").realCallIssued = false := by
  refine ⟨?_, ?_, ?_⟩
  · exact (execute_query_cost_gate ⟨clientSmall, 1000000000, false⟩ "SELECT 1" rfl).1.mpr
      (by norm_num [clientSmall])
  · exact ((execute_query_cost_gate ⟨clientBig, 1000000000, false⟩ "SELECT 1" rfl).2.1
      (by norm_num [clientBig, clientSmall])).1
  · exact ((execute_query_cost_gate ⟨clientBig, 1000000000, false⟩ "SELECT 1" rfl).2.1
      (by norm_num [clientBig, clientSmall])).2

theorem paginated_aux_length (fetch : Option String → List Row × Option String)
    (m : Nat) (hm : 1 ≤ m) :
    ∀ (fuel : Nat) (token : Option String) (count : Nat),
      (paginated_query_aux fetch (some (m : Int)) fuel token count).length ≤
        1 + (m - count) := by
  intro fuel
  induction fuel with
  | zero =>
    intro token count
    simp [paginated_query_aux]
  | succ n ih =>
    intro token count
    unfold paginated_query_aux
    by_cases hstop : (pageTokenFalsy (fetch token).2 ||
        (maxPagesTruthy (some (m : Int)) &&
          decide ((some (m : Int)).getD 0 ≤ (count : Int)))) = true
    · rw [if_pos hstop]
      simp
    · rw [if_neg hstop]
      have hcount : count < m := by
        by_contra hge
        apply hstop
        have htr : maxPagesTruthy (some (m : Int)) = true := by
          simp [maxPagesTruthy]
          omega
        have hdec : decide ((some (m : Int)).getD 0 ≤ (count : Int)) = true := by
          simp only [Option.getD_some]
          rw [decide_eq_true_eq]
          omega
        rw [htr, hdec]
        simp
      have := ih (fetch token).2 (count + 1)
      simp only [List.length_cons]
      omega

theorem paginated_aux_fuel_indep (fetch : Option String → List Row × Option String)
    (m : Nat) (hm : 1 ≤ m) :
    ∀ (fuel1 fuel2 : Nat) (token : Option String) (count : Nat),
      count ≤ m → m + 1 - count ≤ fuel1 → m + 1 - count ≤ fuel2 →
      paginated_query_aux fetch (some (m : Int)) fuel1 token count =
        paginated_query_aux fetch (some (m : Int)) fuel2 token count := by
  intro fuel1
  induction fuel1 with
  | zero =>
    intro fuel2 token count hc h1 h2
    omega
  | succ n ih =>
    intro fuel2 token count hc h1 h2
    cases fuel2 with
    | zero => omega
    | succ n2 =>
      unfold paginated_query_aux
      by_cases hstop : (pageTokenFalsy (fetch token).2 ||
          (maxPagesTruthy (some (m : Int)) &&
            decide ((some (m : Int)).getD 0 ≤ (count : Int)))) = true
      · rw [if_pos hstop, if_pos hstop]
      · rw [if_neg hstop, if_neg hstop]
        have hcount : count < m := by
          by_contra hge
          apply hstop
          have htr : maxPagesTruthy (some (m : Int)) = true := by
            simp [maxPagesTruthy]
            omega
          have hdec : decide ((some (m : Int)).getD 0 ≤ (count : Int)) = true := by
            simp only [Option.getD_some]
            rw [decide_eq_true_eq]
            omega
          rw [htr, hdec]
          simp
        rw [ih n2 (fetch token).2 (count + 1) (by omega) (by omega) (by omega)]

/--
C4 (amended). For `max_pages = m ≥ 1`, `paginated_query` yields at most
m + 1 row-batches — not m: the loop checks `page_count >= max_pages`
*before* incrementing, so the cap admits one extra batch. A batch whose
continuation token is absent (or empty) is the last one, and with fuel at
least m + 1 the lazy sequence has stabilized (the traversal terminates).
-/
theorem paginated_query_bound (c : Connector) (m : Nat) (hm : 1 ≤ m) :
    (∀ fuel, (paginated_query c (some (m : Int)) fuel).length ≤ m + 1) ∧
    (∀ fuel token count, pageTokenFalsy (c.client.fetchPage token).2 = true →
      paginated_query_aux c.client.fetchPage (some (m : Int)) (fuel + 1) token count =
        [(c.client.fetchPage token).1]) ∧
    (∀ fuel1 fuel2, m + 1 ≤ fuel1 → m + 1 ≤ fuel2 →
      paginated_query c (some (m : Int)) fuel1 =
        paginated_query c (some (m : Int)) fuel2) := by
  refine ⟨?_, ?_, ?_⟩
  · intro fuel
    have := paginated_aux_length c.client.fetchPage m hm fuel none 0
    unfold paginated_query
    omega
  · intro fuel token count hfalsy
    unfold paginated_query_aux
    rw [if_pos (by rw [hfalsy]; simp)]
  · intro fuel1 fuel2 h1 h2
    unfold paginated_query
    exact paginated_aux_fuel_indep c.client.fetchPage m hm fuel1 fuel2 none 0
      (by omega) (by omega) (by omega)

/-- A client whose page fetcher always reports a continuation token. -/
def clientEndless : Client :=
  { dryRunBytes := fun _ => 0,
    realRows := fun _ => [],
    fetchPage := fun _ => ([[("page", 1)]], some "next"),
    tableSchema := fun _ => none,
    healthy := true }

/--
C4 (counterexample to the claim as stated). With `max_pages = 1` and a
warehouse that always reports a continuation token, `paginated_query`
yields two batches, exceeding the claimed bound of at most `max_pages`
batches.
-/
theorem paginated_query_extra_page :
    paginated_query ⟨clientEndless, 1000, false⟩ (some 1) 5 =
      [[[("page", 1)]], [[("page", 1)]]] ∧
    (paginated_query ⟨clientEndless, 1000, false⟩ (some 1) 5).length = 2 := by
  constructor
  · rfl
  · rfl

/--
C4 witness: the bound applied at m = 2 on the always-continuing client
(three batches stabilize for any fuel from 3 up), and the no-token clause
applied on a client whose first page carries no token.
-/
theorem paginated_query_bound_witness :
    (paginated_query ⟨clientEndless, 1000, false⟩ (some 2) 10).length ≤ 3 ∧
    paginated_query_aux clientSmall.fetchPage (some 2) 1 none 0 = [[]] ∧
    paginated_query ⟨clientEndless, 1000, false⟩ (some 2) 3 =
      paginated_query ⟨clientEndless, 1000, false⟩ (some 2) 10 := by
  refine ⟨?_, ?_, ?_⟩
  · exact (paginated_query_bound ⟨clientEndless, 1000, false⟩ 2 (by norm_num)).1 10
  · exact (paginated_query_bound ⟨clientSmall, 1000, false⟩ 2 (by norm_num)).2.1 0 none 0 rfl
  · exact (paginated_query_bound ⟨clientEndless, 1000, false⟩ 2 (by norm_num)).2.2 3 10
      (by norm_num) (by norm_num)

/-- A fully healthy client with a known one-table schema. -/
def clientHealthy : Client :=
  { dryRunBytes := fun _ => 100,
    realRows := fun _ => [[("one", 1)]],
    fetchPage := fun _ => ([[("one", 1)]], none),
    tableSchema := fun _ => some [⟨"event_date", "STRING", "NULLABLE", "Event date"⟩],
    healthy := true }

/--
C7 (counterexample to the claim as stated). After `close()`, operations on
a healthy client do not fail with `ClosedConnectorError` (no such error
exists in the code): `test_connection` still returns true,
`get_table_schema` still succeeds, `paginated_query` still yields a batch,
and `execute_query` fails — but with the executor's RuntimeError (raised
after the dry run), not a `ClosedConnectorError`.
-/
theorem close_not_enforced :
    test_connection (close ⟨clientHealthy, 1000, false⟩) = true ∧
    get_table_schema (close ⟨clientHealthy, 1000, false⟩) "events" =
      Except.ok [⟨"event_date", "STRING", "NULLABLE", "Event date"⟩] ∧
    paginated_query (close ⟨clientHealthy, 1000, false⟩) none 5 = [[[("one", 1)]]] ∧
    (execute_query (close ⟨clientHealthy, 1000, false⟩) "SELECT 1").result =
      Except.error (DbError.runtime "cannot schedule new futures after shutdown") := by
  refine ⟨rfl, rfl, rfl, rfl⟩

/--
C7 (amended). `close()` is idempotent (safe to call multiple times), but it
only shuts down the worker pool: afterwards `test_connection`,
`get_table_schema` and `paginated_query` behave exactly as before, and
`execute_query` still performs the dry-run estimate — rejecting
over-budget queries with `QueryCostError` exactly as when open — and fails
with the pool's RuntimeError (not a `ClosedConnectorError`, which does not
exist) only when the estimate is within budget.
-/
theorem close_behavior (c : Connector) :
    close (close c) = close c ∧
    test_connection (close c) = test_connection c ∧
    (∀ t, get_table_schema (close c) t = get_table_schema c t) ∧
    (∀ mp fuel, paginated_query (close c) mp fuel = paginated_query c mp fuel) ∧
    (∀ q, c.maxBytesProcessed < c.client.dryRunBytes q →
      execute_query (close c) q = execute_query c q) ∧
    (∀ q, c.client.dryRunBytes q ≤ c.maxBytesProcessed →
      (execute_query (close c) q).result =
        Except.error (DbError.runtime "cannot schedule new futures after shutdown") ∧
      (execute_query (close c) q).realCallIssued = false) := by
  refine ⟨rfl, rfl, fun _ => rfl, fun _ _ => rfl, ?_, ?_⟩
  · intro q hq
    rw [execute_query_over_budget (close c) q hq, execute_query_over_budget c q hq]
    rfl
  · intro q hq
    rw [execute_query_closed_pool (close c) q
      (by show ¬ c.maxBytesProcessed < c.client.dryRunBytes q; omega) rfl]
    exact ⟨rfl, rfl⟩

/--
C7 witness: the amended behavior evaluated on the healthy client with
budget 1000 — double close equals close, liveness and schema lookup are
unaffected, and the within-budget execute fails with the RuntimeError.
-/
theorem close_behavior_witness :
    close (close ⟨clientHealthy, 1000, false⟩) = close ⟨clientHealthy, 1000, false⟩ ∧
    test_connection (close ⟨clientHealthy, 1000, false⟩) =
      test_connection ⟨clientHealthy, 1000, false⟩ ∧
    (execute_query (close ⟨clientHealthy, 1000, false⟩) "SELECT 1").realCallIssued = false := by
  refine ⟨(close_behavior ⟨clientHealthy, 1000, false⟩).1,
          (close_behavior ⟨clientHealthy, 1000, false⟩).2.1,
          ((close_behavior ⟨clientHealthy, 1000, false⟩).2.2.2.2.2 "SELECT 1"
            (by norm_num [clientHealthy])).2⟩

/-! ### The synthesis loop (`BigQueryTool`, bigquery_tool.py) -/

/-- The tool's configuration fields (class attributes, lines 35-37). -/
structure ToolCfg where
  nb_example_rows : Nat
  validate_empty_results : Bool
  validate_with_llm : Bool
deriving DecidableEq

/-- The class defaults: 3 example rows, both validation flags on. -/
def defaultToolCfg : ToolCfg := ⟨3, true, true⟩

/--
The tool's environment: `exec` is `self.db.execute_query` (an error models
any raised exception, carrying `str(e)`); `gen` is the text-generation
capability `_agenerate_response`, indexed by a call counter in the order
the calls are made (0 = field selection, 1 = query generation, then the
loop's validation/repair calls).
-/
structure Env where
  exec : List Char → Except (List Char) (List Row)
  gen : Nat → Except (List Char) (List Char)

/-- The Python single-quote character, used by `repr` of dict keys. -/
def sq : Char := Char.ofNat 39

/-- Python `repr` of one result row (a dict of column name to int). -/
def pyReprRow (r : Row) : List Char :=
  "\x7b".toList ++
    List.intercalate ", ".toList
      (r.map (fun kv =>
        sq :: (kv.1.toList ++ (sq :: (": ".toList ++ (toString kv.2).toList))))) ++
  "\x7d".toList

/-- Python `str` of a list of result rows. -/
def pyReprRows (rs : List Row) : List Char :=
  '[' :: (List.intercalate ", ".toList (rs.map pyReprRow) ++ [']'])

/--
The results summary of `_avalidate_response` (line 247-248):

    sample_rows = results[:self.nb_example_rows]
    results_str = f"total rows: {len(results)}, first {len(sample_rows)} rows: {sample_rows}"

A pure function of the (unmutated) result list.
-/
def resultsSummary (results : List Row) (nb : Nat) : List Char :=
  "total rows: ".toList ++ (toString results.length).toList ++
  ", first ".toList ++ (toString (results.take nb).length).toList ++
  " rows: ".toList ++ pyReprRows (results.take nb)

/-- `_construct_final_response` (lines 318-321): query text and summary
joined by the fixed separator. -/
def construct_final_response (query_response results_str : List Char) : List Char :=
  query_response ++ "\n\nResults: ".toList ++ results_str

/--
`_avalidate_response` (lines 222-270). The whole body runs inside one
try/except: extraction failure and a raised `db.execute_query` are turned
into invalid-with-reason triples, and — because the LLM consultation also
sits inside the try — so is an exception from the text-generation
capability during validation. Returns the `(is_valid, results_str, reason)`
triple and the advanced generation-call counter.
-/
def avalidate_response (cfg : ToolCfg) (env : Env) (question response : List Char)
    (ctr : Nat) : (Bool × List Char × List Char) × Nat :=
  match extractQuery response with
  | Except.error msg => ((false, [], msg), ctr)
  | Except.ok query =>
    match env.exec query with
    | Except.error e => ((false, [], e), ctr)
    | Except.ok results =>
      if results.isEmpty then
        ((false, [], "Query returned no results".toList), ctr)
      else if cfg.validate_empty_results && (results.length == 0) then
        ((false, [], "Query executed but returned no rows".toList), ctr)
      else if cfg.validate_with_llm then
        match env.gen ctr with
        | Except.error e => ((false, [], e), ctr + 1)
        | Except.ok vresp => (parse_validation vresp, ctr + 1)
      else
        ((true, resultsSummary results cfg.nb_example_rows, []), ctr)

/-- A terminal outcome of `_arun`: the streamed final response, the
"no_data" sentinel, or a propagated exception. -/
inductive Outcome
  | answered (final : List Char)
  | noData
  | failed (e : List Char)
deriving DecidableEq

/-- The loop's result together with the number of repair cycles
(`_aimprove_query` calls) it performed. -/
structure LoopOut where
  outcome : Outcome
  repairs : Nat
deriving DecidableEq

/--
The retry loop of `_arun` (lines 122-162):

    result, retries, is_valid = None, 0, False
    while result is None and retries <= 3:
        is_valid, results_str, complaints = await self._avalidate_response(...)
        if is_valid:
            result = query_response
        else:
            query_response = await self._aimprove_query(..., complaints, ...)
            retries += 1

Fuel-bounded with the fuel counting loop-guard evaluations; `retries`
starts at 0 so fuel 5 covers every reachable path (proved below as
fuel-independence). An exception from `_aimprove_query`'s generation call
escapes the loop (`Outcome.failed`).
-/
def synthLoop (cfg : ToolCfg) (env : Env) (question fields : List Char) :
    Nat → Nat → Nat → List Char → Nat → LoopOut
  | 0, _, _, _, repairs => ⟨Outcome.noData, repairs⟩
  | fuel + 1, retries, ctr, query_response, repairs =>
    if retries ≤ 3 then
      match avalidate_response cfg env question query_response ctr with
      | ((true, results_str, _), _) =>
        ⟨Outcome.answered (construct_final_response query_response results_str), repairs⟩
      | ((false, _, complaints), ctr2) =>
        match env.gen ctr2 with
        | Except.error e => ⟨Outcome.failed e, repairs⟩
        | Except.ok newq =>
          synthLoop cfg env question fields fuel (retries + 1) (ctr2 + 1) newq (repairs + 1)
    else ⟨Outcome.noData, repairs⟩

/-- Field selection `_alist_required_fields` (lines 184-192): split the
response on commas, strip each entry, re-join with ", ". -/
def listRequiredFields (response : List Char) : List Char :=
  List.intercalate ", ".toList ((pySplitChar ',' response).map pyStrip)

/--
`_arun` (lines 98-168): field selection, then query generation, then the
retry loop with fuel 5 (retries 0, generation-call counter 2). Exceptions
from the two leading generation calls are caught only by the outer
try/except and become a FAILED outcome with zero repair cycles.
-/
def arun (cfg : ToolCfg) (env : Env) (question : List Char) : LoopOut :=
  match env.gen 0 with
  | Except.error e => ⟨Outcome.failed e, 0⟩
  | Except.ok fieldsResp =>
    match env.gen 1 with
    | Except.error e => ⟨Outcome.failed e, 0⟩
    | Except.ok query_response =>
      synthLoop cfg env question (listRequiredFields fieldsResp) 5 0 2 query_response 0

theorem synthLoop_repairs_le (cfg : ToolCfg) (env : Env) (question fields : List Char) :
    ∀ (fuel retries ctr : Nat) (qr : List Char) (reps : Nat),
      (synthLoop cfg env question fields fuel retries ctr qr reps).repairs ≤
        reps + (4 - retries) := by
  intro fuel
  induction fuel with
  | zero =>
    intro retries ctr qr reps
    simp [synthLoop]
  | succ n ih =>
    intro retries ctr qr reps
    unfold synthLoop
    by_cases hr : retries ≤ 3
    · rw [if_pos hr]
      rcases h : avalidate_response cfg env question qr ctr with ⟨⟨b, s, r⟩, ctr2⟩
      cases b
      · show (match env.gen ctr2 with
          | Except.error e => ({ outcome := Outcome.failed e, repairs := reps } : LoopOut)
          | Except.ok newq =>
              synthLoop cfg env question fields n (retries + 1) (ctr2 + 1) newq
                (reps + 1)).repairs ≤ reps + (4 - retries)
        cases hg : env.gen ctr2 with
        | error e => simp
        | ok newq =>
          show (synthLoop cfg env question fields n (retries + 1) (ctr2 + 1) newq
            (reps + 1)).repairs ≤ reps + (4 - retries)
          have := ih (retries + 1) (ctr2 + 1) newq (reps + 1)
          omega
      · simp
    · rw [if_neg hr]
      simp

theorem synthLoop_fuel_indep (cfg : ToolCfg) (env : Env) (question fields : List Char) :
    ∀ (fuel1 fuel2 retries ctr : Nat) (qr : List Char) (reps : Nat),
      5 - retries ≤ fuel1 → 5 - retries ≤ fuel2 →
      synthLoop cfg env question fields fuel1 retries ctr qr reps =
        synthLoop cfg env question fields fuel2 retries ctr qr reps := by
  intro fuel1
  induction fuel1 with
  | zero =>
    intro fuel2 retries ctr qr reps h1 h2
    have hr : ¬ retries ≤ 3 := by omega
    cases fuel2 with
    | zero => rfl
    | succ n2 =>
      show synthLoop cfg env question fields 0 retries ctr qr reps = _
      unfold synthLoop
      rw [if_neg hr]
  | succ n ih =>
    intro fuel2 retries ctr qr reps h1 h2
    cases fuel2 with
    | zero =>
      have hr : ¬ retries ≤ 3 := by omega
      unfold synthLoop
      rw [if_neg hr]
    | succ n2 =>
      unfold synthLoop
      by_cases hr : retries ≤ 3
      · rw [if_pos hr, if_pos hr]
        rcases h : avalidate_response cfg env question qr ctr with ⟨⟨b, s, r⟩, ctr2⟩
        cases b
        · show (match env.gen ctr2 with
            | Except.error e => ({ outcome := Outcome.failed e, repairs := reps } : LoopOut)
            | Except.ok newq =>
                synthLoop cfg env question fields n (retries + 1) (ctr2 + 1) newq (reps + 1)) =
            (match env.gen ctr2 with
            | Except.error e => ({ outcome := Outcome.failed e, repairs := reps } : LoopOut)
            | Except.ok newq =>
                synthLoop cfg env question fields n2 (retries + 1) (ctr2 + 1) newq (reps + 1))
          cases hg : env.gen ctr2 with
          | error e => rfl
          | ok newq =>
            exact ih n2 (retries + 1) (ctr2 + 1) newq (reps + 1) (by omega) (by omega)
        · rfl
      · rw [if_neg hr, if_neg hr]

theorem synthLoop_never_valid (cfg : ToolCfg) (env : Env) (question fields : List Char)
    (hval : ∀ resp ctr, (avalidate_response cfg env question resp ctr).1.1 = false)
    (hgen : ∀ n, ∃ s, env.gen n = Except.ok s) :
    ∀ (fuel retries ctr : Nat) (qr : List Char) (reps : Nat), 5 - retries ≤ fuel →
      synthLoop cfg env question fields fuel retries ctr qr reps =
        ⟨Outcome.noData, reps + (4 - retries)⟩ := by
  intro fuel
  induction fuel with
  | zero =>
    intro retries ctr qr reps h1
    have : 4 - retries = 0 := by omega
    rw [this]
    rfl
  | succ n ih =>
    intro retries ctr qr reps h1
    unfold synthLoop
    by_cases hr : retries ≤ 3
    · rw [if_pos hr]
      rcases h : avalidate_response cfg env question qr ctr with ⟨⟨b, s, r⟩, ctr2⟩
      have hb : b = false := by
        have hv := hval qr ctr
        rw [h] at hv
        exact hv
      subst hb
      obtain ⟨newq, hnew⟩ := hgen ctr2
      show (match env.gen ctr2 with
        | Except.error e => ({ outcome := Outcome.failed e, repairs := reps } : LoopOut)
        | Except.ok newq =>
            synthLoop cfg env question fields n (retries + 1) (ctr2 + 1) newq (reps + 1)) =
        ⟨Outcome.noData, reps + (4 - retries)⟩
      rw [hnew]
      show synthLoop cfg env question fields n (retries + 1) (ctr2 + 1) newq (reps + 1) =
        ⟨Outcome.noData, reps + (4 - retries)⟩
      rw [ih (retries + 1) (ctr2 + 1) newq (reps + 1) (by omega)]
      have heq : reps + 1 + (4 - (retries + 1)) = reps + (4 - retries) := by omega
      rw [heq]
    · rw [if_neg hr]
      have heq0 : reps + (4 - retries) = reps := by omega
      rw [heq0]

/--
C3 (amended). The loop guard `retries <= 3` admits one more iteration than
the claimed bound: the synthesis loop performs at most 4 repair cycles (not
3), the loop's value is independent of the fuel from 5 - retries on (so the
Python while-loop terminates on every input), and a question whose
candidate query never validates (with a generation capability that never
raises) ends with the "no_data" sentinel after exactly 4 repair cycles —
it never loops forever and never raises.
-/
theorem synthesis_loop_bound (cfg : ToolCfg) (env : Env) (question : List Char) :
    ((arun cfg env question).repairs ≤ 4) ∧
    (∀ (fields : List Char) (fuel1 fuel2 retries ctr : Nat) (qr : List Char) (reps : Nat),
      5 - retries ≤ fuel1 → 5 - retries ≤ fuel2 →
      synthLoop cfg env question fields fuel1 retries ctr qr reps =
        synthLoop cfg env question fields fuel2 retries ctr qr reps) ∧
    ((∀ resp ctr, (avalidate_response cfg env question resp ctr).1.1 = false) →
     (∀ n, ∃ s, env.gen n = Except.ok s) →
     arun cfg env question = ⟨Outcome.noData, 4⟩) := by
  refine ⟨?_, synthLoop_fuel_indep cfg env question, ?_⟩
  · unfold arun
    cases hg0 : env.gen 0 with
    | error e => simp
    | ok fieldsResp =>
      cases hg1 : env.gen 1 with
      | error e => simp
      | ok qr =>
        show (synthLoop cfg env question (listRequiredFields fieldsResp) 5 0 2 qr 0).repairs ≤ 4
        have := synthLoop_repairs_le cfg env question (listRequiredFields fieldsResp)
          5 0 2 qr 0
        omega
  · intro hval hgen
    unfold arun
    obtain ⟨s0, h0⟩ := hgen 0
    obtain ⟨s1, h1⟩ := hgen 1
    rw [h0, h1]
    exact synthLoop_never_valid cfg env question (listRequiredFields s0) hval hgen
      5 0 2 s1 0 (by omega)

/-- A generation capability that never produces fenced markers, over a
warehouse that is never reached. -/
def envUnfenced : Env :=
  { exec := fun _ => Except.error "unused".toList,
    gen := fun _ => Except.ok "no fenced markers".toList }

/--
C3 (counterexample to the claim as stated). With the retry bound 3 and a
generation capability that never returns fenced markers, the loop performs
4 repair cycles, not at most 3, before terminating with "no_data".
-/
theorem synthesis_loop_four_repairs :
    arun defaultToolCfg envUnfenced "show events".toList =
      ⟨Outcome.noData, 4⟩ := by
  rfl

/--
C3 witness: the amended bound applied to the never-validating environment —
its validation always fails (the warehouse call raises), its generation
always succeeds, and the theorem yields the "no_data" outcome with 4 repair
cycles and the repair-count bound.
-/
theorem synthesis_loop_bound_witness :
    arun defaultToolCfg envUnfenced "show events".toList = ⟨Outcome.noData, 4⟩ ∧
    (arun defaultToolCfg envUnfenced "show events".toList).repairs ≤ 4 := by
  have hval : ∀ resp ctr,
      (avalidate_response defaultToolCfg envUnfenced "show events".toList resp ctr).1.1 =
        false := by
    intro resp ctr
    unfold avalidate_response
    cases extractQuery resp with
    | error m => rfl
    | ok q => rfl
  refine ⟨(synthesis_loop_bound defaultToolCfg envUnfenced "show events".toList).2.2
            hval (fun n => ⟨"no fenced markers".toList, rfl⟩),
          (synthesis_loop_bound defaultToolCfg envUnfenced "show events".toList).1⟩

/-- An environment whose LLM validation consultation (generation call 2)
raises, while every other generation call succeeds: call 4 approves the
repaired query. -/
def envValFail : Env :=
  { exec := fun _ => Except.ok [[("users", 100)]],
    gen := fun n =>
      if n == 2 then Except.error "LLMBoom".toList
      else if n == 4 then Except.ok "Valid: yes\nReason: fine".toList
      else Except.ok "```sql\nSELECT 1\n```".toList }

/--
C6 (counterexample to the claim as stated). The generation capability
raises during the validation consultation (call 2), yet the loop does not
propagate it as a FAILED outcome: the exception is caught inside
`_avalidate_response`'s try/except, converted into a validation failure,
and consumed as one repair cycle — the run ends ANSWERED after that repair.
-/
theorem validation_llm_error_retried :
    envValFail.gen 2 = Except.error "LLMBoom".toList ∧
    arun defaultToolCfg envValFail "q".toList =
      ⟨Outcome.answered ("```sql\nSELECT 1\n```".toList ++ "\n\nResults: ".toList), 1⟩ := by
  exact ⟨rfl, rfl⟩

/--
C6 (amended). Exceptions of the text-generation capability raised during
field selection, query generation, or repair are not retried: they
propagate immediately as a FAILED outcome with no repair cycle consumed.
But an exception raised during the LLM validation consultation is caught by
`_avalidate_response`'s try/except and converted into an invalid-with-reason
outcome — it triggers repair instead of failing.
-/
theorem generation_error_propagation (cfg : ToolCfg) (env : Env) (question : List Char) :
    (∀ e, env.gen 0 = Except.error e →
      arun cfg env question = ⟨Outcome.failed e, 0⟩) ∧
    (∀ f e, env.gen 0 = Except.ok f → env.gen 1 = Except.error e →
      arun cfg env question = ⟨Outcome.failed e, 0⟩) ∧
    (∀ (fields : List Char) (fuel retries ctr : Nat) (qr s r : List Char)
        (ctr2 : Nat) (e : List Char) (reps : Nat), retries ≤ 3 →
      avalidate_response cfg env question qr ctr = ((false, s, r), ctr2) →
      env.gen ctr2 = Except.error e →
      synthLoop cfg env question fields (fuel + 1) retries ctr qr reps =
        ⟨Outcome.failed e, reps⟩) ∧
    (∀ (resp query : List Char) (results : List Row) (ctr : Nat) (e : List Char),
      cfg.validate_with_llm = true →
      extractQuery resp = Except.ok query →
      env.exec query = Except.ok results → results ≠ [] →
      env.gen ctr = Except.error e →
      avalidate_response cfg env question resp ctr = ((false, [], e), ctr + 1)) := by
  refine ⟨?_, ?_, ?_, ?_⟩
  · intro e h
    unfold arun
    rw [h]
  · intro f e h0 h1
    unfold arun
    rw [h0, h1]
  · intro fields fuel retries ctr qr s r ctr2 e reps hr hav hg
    unfold synthLoop
    rw [if_pos hr, hav]
    show (match env.gen ctr2 with
      | Except.error e => ({ outcome := Outcome.failed e, repairs := reps } : LoopOut)
      | Except.ok newq =>
          synthLoop cfg env question fields fuel (retries + 1) (ctr2 + 1) newq (reps + 1)) =
      ⟨Outcome.failed e, reps⟩
    rw [hg]
  · intro resp query results ctr e hllm hex hexec hne hg
    unfold avalidate_response
    simp only [hex, hexec]
    cases results with
    | nil => exact absurd rfl hne
    | cons a l => simp [hllm, hg]

/-- An environment whose generation capability is down for every call. -/
def envGenDown : Env :=
  { exec := fun _ => Except.ok [[("one", 1)]],
    gen := fun _ => Except.error "llm down".toList }

/--
C6 witness: the amended theorem applied to the always-down generation
capability — the field-selection failure propagates as FAILED with zero
repairs, and a validation-consultation failure is converted into an
invalid triple carrying the exception text.
-/
theorem generation_error_propagation_witness :
    arun defaultToolCfg envGenDown "q".toList =
      ⟨Outcome.failed "llm down".toList, 0⟩ ∧
    avalidate_response defaultToolCfg envGenDown "q".toList
        "```sql\nSELECT 1\n```".toList 2 =
      ((false, [], "llm down".toList), 3) := by
  refine ⟨(generation_error_propagation defaultToolCfg envGenDown "q".toList).1
            "llm down".toList rfl, ?_⟩
  exact (generation_error_propagation defaultToolCfg envGenDown "q".toList).2.2.2
    "```sql\nSELECT 1\n```".toList "SELECT 1".toList [[("one", 1)]] 2
    "llm down".toList rfl rfl rfl (by simp) rfl

theorem avalidate_extract_err (cfg : ToolCfg) (env : Env)
    (question resp m : List Char) (ctr : Nat)
    (hex : extractQuery resp = Except.error m) :
    avalidate_response cfg env question resp ctr = ((false, [], m), ctr) := by
  unfold avalidate_response
  simp only [hex]

theorem avalidate_exec_err (cfg : ToolCfg) (env : Env)
    (question resp query e : List Char) (ctr : Nat)
    (hex : extractQuery resp = Except.ok query)
    (hexec : env.exec query = Except.error e) :
    avalidate_response cfg env question resp ctr = ((false, [], e), ctr) := by
  unfold avalidate_response
  simp only [hex, hexec]

theorem avalidate_exec_ok (cfg : ToolCfg) (env : Env)
    (question resp query : List Char) (results : List Row) (ctr : Nat)
    (hex : extractQuery resp = Except.ok query)
    (hexec : env.exec query = Except.ok results) :
    avalidate_response cfg env question resp ctr =
      (if results.isEmpty then
        ((false, [], "Query returned no results".toList), ctr)
      else if cfg.validate_empty_results && (results.length == 0) then
        ((false, [], "Query executed but returned no rows".toList), ctr)
      else if cfg.validate_with_llm then
        match env.gen ctr with
        | Except.error e => ((false, [], e), ctr + 1)
        | Except.ok vresp => (parse_validation vresp, ctr + 1)
      else
        ((true, resultsSummary results cfg.nb_example_rows, []), ctr)) := by
  unfold avalidate_response
  simp only [hex, hexec]

theorem synthLoop_valid_step (cfg : ToolCfg) (env : Env)
    (question fields : List Char) (fuel retries ctr : Nat) (qr s r : List Char)
    (ctr2 reps : Nat) (hr : retries ≤ 3)
    (h : avalidate_response cfg env question qr ctr = ((true, s, r), ctr2)) :
    synthLoop cfg env question fields (fuel + 1) retries ctr qr reps =
      ⟨Outcome.answered (construct_final_response qr s), reps⟩ := by
  unfold synthLoop
  rw [if_pos hr, h]

/--
C8. With LLM validation off and a nonempty execution result, the loop
terminates DONE on the first attempt (zero repair cycles) and the final
tool response is the validated response text, the fixed separator
"\n\nResults: ", and the summary built (without mutating the result list)
from the total row count and the first `nb_example_rows` rows; the text
"total rows: <count>" occurs in the final response.
-/
theorem done_first_attempt (cfg : ToolCfg) (env : Env)
    (question fieldsResp qresp query : List Char) (results : List Row)
    (hllm : cfg.validate_with_llm = false)
    (hgen0 : env.gen 0 = Except.ok fieldsResp)
    (hgen1 : env.gen 1 = Except.ok qresp)
    (hex : extractQuery qresp = Except.ok query)
    (hexec : env.exec query = Except.ok results)
    (hne : results ≠ []) :
    arun cfg env question =
      ⟨Outcome.answered
        (construct_final_response qresp (resultsSummary results cfg.nb_example_rows)), 0⟩ ∧
    List.IsInfix ("total rows: ".toList ++ (toString results.length).toList)
      (construct_final_response qresp (resultsSummary results cfg.nb_example_rows)) := by
  constructor
  · have hav : avalidate_response cfg env question qresp 2 =
        ((true, resultsSummary results cfg.nb_example_rows, []), 2) := by
      unfold avalidate_response
      simp only [hex, hexec]
      cases results with
      | nil => exact absurd rfl hne
      | cons a l => simp [hllm]
    unfold arun
    rw [hgen0, hgen1]
    show synthLoop cfg env question (listRequiredFields fieldsResp) 5 0 2 qresp 0 =
      ⟨Outcome.answered
        (construct_final_response qresp (resultsSummary results cfg.nb_example_rows)), 0⟩
    exact synthLoop_valid_step cfg env question (listRequiredFields fieldsResp)
      4 0 2 qresp (resultsSummary results cfg.nb_example_rows) [] 2 0 (by omega) hav
  · refine ⟨qresp ++ "\n\nResults: ".toList,
      ", first ".toList ++ (toString (results.take cfg.nb_example_rows).length).toList ++
        " rows: ".toList ++ pyReprRows (results.take cfg.nb_example_rows), ?_⟩
    simp [construct_final_response, resultsSummary, List.append_assoc]

/-- The two-row result set of scenario A. -/
def rows2 : List Row :=
  [[("users", 100), ("sessions", 150)], [("users", 120), ("sessions", 180)]]

/-- Scenario A's environment: fields then a well-fenced query, a warehouse
returning two rows. -/
def envA : Env :=
  { exec := fun _ => Except.ok rows2,
    gen := fun n =>
      if n == 0 then Except.ok "user_id, event_name".toList
      else Except.ok "```sql\nSELECT * FROM events```".toList }

/-- The tool configuration with LLM validation disabled. -/
def cfgNoLLM : ToolCfg := ⟨3, true, false⟩

/--
C8 witness: scenario A end-to-end — DONE on the first attempt, and
"total rows: 2" occurs in the final response.
-/
theorem done_first_attempt_witness :
    arun cfgNoLLM envA "show events".toList =
      ⟨Outcome.answered
        (construct_final_response "```sql\nSELECT * FROM events```".toList
          (resultsSummary rows2 3)), 0⟩ ∧
    List.IsInfix "total rows: 2".toList
      (construct_final_response "```sql\nSELECT * FROM events```".toList
        (resultsSummary rows2 3)) := by
  have h := done_first_attempt cfgNoLLM envA "show events".toList
    "user_id, event_name".toList "```sql\nSELECT * FROM events```".toList
    "SELECT * FROM events".toList rows2 rfl rfl rfl rfl rfl (by simp [rows2])
  exact h

/--
C9. A zero-row execution always fails validation with the reason
"Query returned no results": the unconditional guard `if not results` runs
before the flag-controlled check, so this holds whatever
`validate_empty_results` is — indeed the whole of `_avalidate_response` is
insensitive to that flag (its branch is unreachable).
-/
theorem empty_results_guard (cfg : ToolCfg) (env : Env) (question : List Char) :
    (∀ (resp query : List Char) (ctr : Nat), extractQuery resp = Except.ok query →
      env.exec query = Except.ok [] →
      avalidate_response cfg env question resp ctr =
        ((false, [], "Query returned no results".toList), ctr)) ∧
    (∀ (b : Bool) (resp : List Char) (ctr : Nat),
      avalidate_response { cfg with validate_empty_results := b } env question resp ctr =
        avalidate_response cfg env question resp ctr) := by
  constructor
  · intro resp query ctr hex hexec
    unfold avalidate_response
    simp [hex, hexec]
  · intro b resp ctr
    cases hex2 : extractQuery resp with
    | error m =>
      rw [avalidate_extract_err _ env question resp m ctr hex2,
        avalidate_extract_err cfg env question resp m ctr hex2]
    | ok q =>
      cases hexec2 : env.exec q with
      | error e =>
        rw [avalidate_exec_err _ env question resp q e ctr hex2 hexec2,
          avalidate_exec_err cfg env question resp q e ctr hex2 hexec2]
      | ok results =>
        rw [avalidate_exec_ok _ env question resp q results ctr hex2 hexec2,
          avalidate_exec_ok cfg env question resp q results ctr hex2 hexec2]
        cases results with
        | nil => rfl
        | cons a l => simp

/-- An environment whose warehouse returns zero rows. -/
def envEmptyRows : Env :=
  { exec := fun _ => Except.ok [],
    gen := fun _ => Except.ok "unused".toList }

/--
C9 witness: with `validate_empty_results := false` the empty result still
fails with "Query returned no results", and flipping the flag changes
nothing.
-/
theorem empty_results_guard_witness :
    avalidate_response ⟨3, false, true⟩ envEmptyRows "q".toList
        "```sql\nSELECT 1\n```".toList 2 =
      ((false, [], "Query returned no results".toList), 2) ∧
    avalidate_response ⟨3, false, true⟩ envEmptyRows "q".toList
        "```sql\nSELECT 1\n```".toList 2 =
      avalidate_response ⟨3, true, true⟩ envEmptyRows "q".toList
        "```sql\nSELECT 1\n```".toList 2 := by
  refine ⟨(empty_results_guard ⟨3, false, true⟩ envEmptyRows "q".toList).1
            "```sql\nSELECT 1\n```".toList "SELECT 1".toList 2 rfl rfl, ?_⟩
  exact (empty_results_guard ⟨3, true, true⟩ envEmptyRows "q".toList).2 false
    "```sql\nSELECT 1\n```".toList 2

/--
C10. On the LLM-validated path the middle component of
`_parse_validation`'s triple is always the empty string, so a successful
LLM validation hands an empty results summary to
`_construct_final_response`: the final response is the query text followed
by "\n\nResults: " and nothing — the row-count/sample summary computed
earlier is discarded.
-/
theorem llm_validation_discards_summary (cfg : ToolCfg) (env : Env) (question : List Char) :
    (∀ s, (parse_validation s).2.1 = ([] : List Char)) ∧
    (∀ (resp query : List Char) (results : List Row) (ctr : Nat) (vresp : List Char),
      cfg.validate_with_llm = true →
      extractQuery resp = Except.ok query →
      env.exec query = Except.ok results → results ≠ [] →
      env.gen ctr = Except.ok vresp →
      (avalidate_response cfg env question resp ctr).1.2.1 = []) ∧
    (∀ (fields : List Char) (fuel retries ctr : Nat) (qr : List Char) (reps : Nat)
        (r : List Char) (ctr2 : Nat), retries ≤ 3 →
      avalidate_response cfg env question qr ctr = ((true, [], r), ctr2) →
      synthLoop cfg env question fields (fuel + 1) retries ctr qr reps =
        ⟨Outcome.answered (qr ++ "\n\nResults: ".toList), reps⟩) := by
  refine ⟨fun s => rfl, ?_, ?_⟩
  · intro resp query results ctr vresp hllm hex hexec hne hg
    unfold avalidate_response
    simp only [hex, hexec]
    cases results with
    | nil => exact absurd rfl hne
    | cons a l => simp [hllm, hg, parse_validation]
  · intro fields fuel retries ctr qr reps r ctr2 hr hav
    have h := synthLoop_valid_step cfg env question fields fuel retries ctr qr [] r
      ctr2 reps hr hav
    rw [h]
    simp [construct_final_response]

/-- An environment whose LLM validation consultation approves the first
candidate query. -/
def envLLMOk : Env :=
  { exec := fun _ => Except.ok [[("users", 100)]],
    gen := fun n =>
      if n == 2 then Except.ok "Valid: yes\nReason: ok".toList
      else Except.ok "```sql\nSELECT 1\n```".toList }

/--
C10 witness: middle component empty on a concrete validation response, and
the loop's final response on the approved first attempt is the query text
plus the bare separator.
-/
theorem llm_validation_discards_summary_witness :
    (parse_validation "Valid: yes\nReason: ok".toList).2.1 = [] ∧
    synthLoop defaultToolCfg envLLMOk "q".toList [] 5 0 2
        "```sql\nSELECT 1\n```".toList 0 =
      ⟨Outcome.answered ("```sql\nSELECT 1\n```".toList ++ "\n\nResults: ".toList), 0⟩ := by
  refine ⟨(llm_validation_discards_summary defaultToolCfg envLLMOk "q".toList).1
            "Valid: yes\nReason: ok".toList, ?_⟩
  exact (llm_validation_discards_summary defaultToolCfg envLLMOk "q".toList).2.2
    [] 4 0 2 "```sql\nSELECT 1\n```".toList 0 "ok".toList 3 (by omega) (by rfl)

end BQ
